import Mathlib

/-!
Shallow embedding of the web-facing layer of the oioioi contest system:
`oioioi/contests/views.py`, `oioioi/teachers/views.py` and
`oioioi/programs/admin.py`.  Framework plumbing (routing, ORM querysets,
templates) is modelled by explicit data passed to each view function, and
the opaque per-contest `controller` object is modelled by oracle arguments
(booleans, lists, predicates) standing for its method results.  Each view
returns an explicit result value together with its observable effects
(messages recorded, e-mails sent, controller calls made, new database
state).
-/

/-- A user-visible message recorded via `django.contrib.messages`. -/
inductive Msg
  | info (text : String)
  | success (text : String)
  | error (text : String)
  deriving DecidableEq, Repr

/-- HTTP request method (only the distinction used by the views matters). -/
inductive HttpMethod
  | get
  | post
  deriving DecidableEq, Repr

/-- First index of `x` in `l`, as Python's `list.index` (but returning
`none` instead of raising `ValueError`). -/
def listIndex {α : Type} [DecidableEq α] : List α → α → Option Nat
  | [], _ => none
  | a :: as, x => if a = x then some 0 else (listIndex as x).map (· + 1)

/-- Python 2's `sys.maxint` on a 64-bit platform. -/
def pythonMaxInt : Nat := 2 ^ 63 - 1

/-- The sort key produced by `sort_key` in `problem_statement_view`:
a pair of the language preference index and the extension preference pair
`(index, tie_string)`, compared lexicographically as in Python. -/
abbrev StmtKey := Nat × Nat × String

/-- Strict lexicographic order on statement sort keys, exactly Python's
tuple comparison of `(lang_pref, (ext_index, ext_string))`. -/
def stmtKeyLT (a b : StmtKey) : Prop :=
  a.1 < b.1 ∨ (a.1 = b.1 ∧ (a.2.1 < b.2.1 ∨ (a.2.1 = b.2.1 ∧ a.2.2 < b.2.2)))

instance (a b : StmtKey) : Decidable (stmtKeyLT a b) := by
  unfold stmtKeyLT; infer_instance

/-- A `ProblemStatement` row: its (possibly NULL) language, its file
extension and an identifier of its `content` file. -/
structure ProblemStatement where
  language : Option String
  extension : String
  content : Nat
  deriving DecidableEq, Repr

/-- `lang_prefs` from `problem_statement_view`: the current request
language, then `''`, then `None`, then the codes of `settings.LANGUAGES`. -/
def lang_prefs (curLang : String) (siteLangs : List String) :
    List (Option String) :=
  [some curLang] ++ [some "", none] ++ siteLangs.map some

/-- `ext_prefs` from `problem_statement_view`. -/
def ext_prefs : List String := [".pdf", ".ps", ".html", ".txt"]

/-- The language component of `sort_key`: `lang_prefs.index(language)`,
falling back to `sys.maxint` when the language is not in the list. -/
def statementLangPref (curLang : String) (siteLangs : List String)
    (language : Option String) : Nat :=
  match listIndex (lang_prefs curLang siteLangs) language with
  | some i => i
  | none => pythonMaxInt

/-- The extension component of `sort_key`: `(ext_prefs.index(ext), '')`,
falling back to `(sys.maxint, ext)` when the extension is unknown. -/
def statementExtPref (ext : String) : Nat × String :=
  match listIndex ext_prefs ext with
  | some i => (i, "")
  | none => (pythonMaxInt, ext)

/-- `sort_key(statement)` from `problem_statement_view`. -/
def statementSortKey (curLang : String) (siteLangs : List String)
    (s : ProblemStatement) : StmtKey :=
  (statementLangPref curLang siteLangs s.language,
   statementExtPref s.extension)

/-- Fold computing the first element of minimal key, which is what
`sorted(statements, key=sort_key)[0]` returns (Python's sort is stable). -/
def firstMinAux {α : Type} (key : α → StmtKey) : α → List α → α
  | best, [] => best
  | best, s :: rest =>
      firstMinAux key (if stmtKeyLT (key s) (key best) then s else best) rest

/-- `sorted(statements, key=sort_key)[0]` for a nonempty statement list. -/
def pickStatement (curLang : String) (siteLangs : List String) :
    List ProblemStatement → Option ProblemStatement
  | [] => none
  | s :: rest => some (firstMinAux (statementSortKey curLang siteLangs) s rest)

/-- Result of `problem_statement_view`. -/
inductive StmtViewResult
  | conditionFailed
  | notFound
  | permissionDenied
  | noStatementTemplate
  | streamFile (content : Nat)
  deriving DecidableEq, Repr

/-- `problem_statement_view` from `oioioi/contests/views.py`.
`entryOk` models the `contest_exists & can_enter_contest` decorator,
`piFound` the `get_object_or_404` lookup of the problem instance,
`canSee` the controller's `can_see_problem`, and `statements` the
queryset of statements of the instance's problem. -/
def problem_statement_view (entryOk : Bool) (piFound : Bool)
    (canSee : Bool) (statements : List ProblemStatement)
    (curLang : String) (siteLangs : List String) : StmtViewResult :=
  if !entryOk then .conditionFailed
  else if !piFound then .notFound
  else if !canSee then .permissionDenied
  else
    match pickStatement curLang siteLangs statements with
    | none => .noStatementTemplate
    | some s => .streamFile s.content

/-- The language tier stated by the claim: current language first, then
statements with empty-string OR missing language (a single tier), then the
site languages in order, then all other languages last. -/
def claimLangTier (curLang : String) (siteLangs : List String)
    (language : Option String) : Nat :=
  if language = some curLang then 0
  else if language = some "" ∨ language = none then 1
  else
    match language with
    | none => 1
    | some l =>
        match listIndex siteLangs l with
        | some i => 2 + i
        | none => pythonMaxInt

/-- The preference key stated by the claim (language tier, then the same
extension preference). -/
def claimStatementKey (curLang : String) (siteLangs : List String)
    (s : ProblemStatement) : StmtKey :=
  (claimLangTier curLang siteLangs s.language, statementExtPref s.extension)

/-- The amended language tier: current language first, then empty-string
language, then missing (NULL) language, then the site languages in order,
then all other languages last. -/
def amendedLangTier (curLang : String) (siteLangs : List String)
    (language : Option String) : Nat :=
  if language = some curLang then 0
  else if language = some "" then 1
  else
    match language with
    | none => 2
    | some l =>
        match listIndex siteLangs l with
        | some i => 3 + i
        | none => pythonMaxInt

/-- The amended preference key. -/
def amendedStatementKey (curLang : String) (siteLangs : List String)
    (s : ProblemStatement) : StmtKey :=
  (amendedLangTier curLang siteLangs s.language, statementExtPref s.extension)

/-! ### `problem_attachment_view` (`oioioi/contests/views.py`) -/

/-- A `ProblemAttachment` row. -/
structure ProblemAttachment where
  problem_id : Nat
  content : Nat
  deriving DecidableEq, Repr

/-- A `ProblemInstance` row (only the field the views read). -/
structure ProblemInstance where
  problem_id : Nat
  deriving DecidableEq, Repr

/-- Result of `problem_attachment_view`. -/
inductive AttachViewResult
  | conditionFailed
  | notFound
  | permissionDenied
  | streamFile (content : Nat)
  deriving DecidableEq, Repr

/-- `problem_attachment_view`: after the entry condition and the 404
lookup, the attachment is streamed only when its problem is among the
requester's visible problem instances, else `PermissionDenied`. -/
def problem_attachment_view (entryOk : Bool)
    (attachment : Option ProblemAttachment)
    (visiblePIs : List ProblemInstance) : AttachViewResult :=
  if !entryOk then .conditionFailed
  else
    match attachment with
    | none => .notFound
    | some a =>
        if a.problem_id ∉ visiblePIs.map (fun pi => pi.problem_id) then
          .permissionDenied
        else .streamFile a.content

/-! ### `activate_pupil_view` (`oioioi/teachers/views.py`) -/

/-- A `RegistrationConfig` row of a contest. -/
structure RegistrationConfig where
  key : String
  is_active : Bool
  deriving DecidableEq, Repr

/-- The registration records of the current contest, plus which users have
a `Teacher` row (needed by `get_object_or_404(Teacher, user=...)`). -/
structure RegState where
  regConfig : Option RegistrationConfig
  pupils : List Nat
  contestTeachers : List Nat
  teacherUsers : List Nat
  deriving DecidableEq, Repr

/-- Result of `activate_pupil_view`. -/
inductive ActivateResult
  | notFound
  | activationTypePage (key : String)
  | activationError (key_ok : Bool) (registration_active : Bool)
  | suspiciousOperation
  | redirectDefaultContestView
  deriving DecidableEq, Repr

/-- `activate_pupil_view` for a logged-in user.  `hasTeacherPerm` models
`request.user.has_perm('teachers.teacher')` and `registerAsParam` the
optional `register_as` request parameter.  Returns the result, the new
registration state and the messages recorded. -/
def activate_pupil_view (st : RegState) (userId : Nat) (key : String)
    (hasTeacherPerm : Bool) (registerAsParam : Option String) :
    ActivateResult × RegState × List Msg :=
  match st.regConfig with
  | none => (.notFound, st, [])
  | some cfg =>
      let key_ok : Bool := cfg.key = key
      if key_ok && cfg.is_active then
        let registerAs : Option String :=
          if !hasTeacherPerm then some "pupil"
          else match registerAsParam with
            | some v => some v
            | none => none
        match registerAs with
        | none => (.activationTypePage key, st, [])
        | some "pupil" =>
            let st' := { st with pupils :=
              if userId ∈ st.pupils then st.pupils else st.pupils ++ [userId] }
            (.redirectDefaultContestView, st', [.info "Activation successful."])
        | some "teacher" =>
            if userId ∈ st.teacherUsers then
              let st' := { st with contestTeachers :=
                if userId ∈ st.contestTeachers then st.contestTeachers
                else st.contestTeachers ++ [userId] }
              (.redirectDefaultContestView, st',
                [.info "Activation successful."])
            else (.notFound, st, [])
        | some _ => (.suspiciousOperation, st, [])
      else (.activationError key_ok cfg.is_active, st, [])

/-! ### `accept_teacher_view` (`oioioi/teachers/views.py`) -/

/-- A `Teacher` row. -/
structure Teacher where
  user_id : Nat
  is_active : Bool
  deriving DecidableEq, Repr

/-- Modelled from the spec: the `Teacher` model itself is not among the
shown sources; the teacher request/acceptance flow of the spec (a user
requests a teacher account which a superuser later accepts) implies that a
freshly created `Teacher` row starts out not yet active, so
`Teacher.objects.get_or_create(user=user)` yields an inactive row when
none exists. -/
def teacherGetOrCreate (existing : Option Teacher) (userId : Nat) :
    Teacher :=
  match existing with
  | some t => t
  | none => { user_id := userId, is_active := false }

/-- Result of `accept_teacher_view`. -/
inductive AcceptResult
  | loginOrSuperuserRequired
  | notFound
  | redirectTeacherChangelist
  deriving DecidableEq, Repr

/-- `accept_teacher_view`: returns the result, the stored `Teacher` row
after the view, the number of acceptance e-mails sent and the messages
recorded.  `userExists` models the `get_object_or_404(User, id=user_id)`
lookup and `existing` the `Teacher` row for that user, if any. -/
def accept_teacher_view (isSuperuser : Bool) (userExists : Bool)
    (userId : Nat) (existing : Option Teacher) :
    AcceptResult × Option Teacher × Nat × List Msg :=
  if !isSuperuser then (.loginOrSuperuserRequired, existing, 0, [])
  else if !userExists then (.notFound, existing, 0, [])
  else
    let teacher := teacherGetOrCreate existing userId
    if teacher.is_active then
      (.redirectTeacherChangelist, some teacher, 0,
        [.info "User already accepted."])
    else
      (.redirectTeacherChangelist, some { teacher with is_active := true }, 1,
        [.success "Successfully accepted and emailed the new teacher."])

/-! ### `submit_view` (`oioioi/contests/views.py`) -/

/-- The cleaned data of a valid `SubmissionForm` (opaque payload plus the
chosen problem instance). -/
structure CleanedData where
  problem_instance : ProblemInstance
  payload : Nat
  deriving DecidableEq, Repr

/-- Result of `submit_view`. -/
inductive SubmitResult
  | conditionFailed
  | nothingToSubmit
  | redirectMySubmissions
  | submitTemplateWithBoundForm
  | submitTemplateWithFreshForm
  deriving DecidableEq, Repr

/-- `submit_view`: `formValid` and `cleaned` model the outcome of
`SubmissionForm` validation.  Returns the result and the list of
`controller.create_submission` calls made. -/
def submit_view (entryOk : Bool) (hasSubmittable : Bool)
    (method : HttpMethod) (formValid : Bool) (cleaned : CleanedData) :
    SubmitResult × List CleanedData :=
  if !entryOk then (.conditionFailed, [])
  else if !hasSubmittable then (.nothingToSubmit, [])
  else
    match method with
    | .post =>
        if formValid then (.redirectMySubmissions, [cleaned])
        else (.submitTemplateWithBoundForm, [])
    | .get => (.submitTemplateWithFreshForm, [])

/-! ### `submission_view` (`oioioi/contests/views.py`) -/

/-- A `SubmissionReport` row. -/
structure SubmissionReport where
  id : Nat
  status : String
  deriving DecidableEq, Repr

/-- Result context of `submission_view`: the reports rendered for every
visitor and the `all_reports` value. -/
structure SubmissionViewContext where
  reports : List SubmissionReport
  all_reports : List SubmissionReport
  deriving DecidableEq, Repr

/-- Result of `submission_view`. -/
inductive SubmissionViewResult
  | conditionFailed
  | notFound
  | page (ctx : SubmissionViewContext)
  deriving DecidableEq, Repr

/-- Python's `admin and filtered or []` applied to a report list. -/
def pyAndOrReports (isAdmin : Bool) (filtered : List SubmissionReport) :
    List SubmissionReport :=
  if isAdmin then (if filtered.isEmpty then [] else filtered) else []

/-- `submission_view`: `visible` models the controller's
`filter_visible_reports` predicate (the controller filters a queryset, so
it is embedded as a `List.filter`), `reportsDB` the queryset of the
submission's reports.  Rendering a report is opaque, so the context keeps
the report rows themselves. -/
def submission_view (entryOk : Bool) (subFound : Bool) (isAdmin : Bool)
    (reportsDB : List SubmissionReport)
    (visible : SubmissionReport → Bool) : SubmissionViewResult :=
  if !entryOk then .conditionFailed
  else if !subFound then .notFound
  else
    let queryset := reportsDB
    let reports := (queryset.filter (fun r => r.status = "ACTIVE")).filter
      visible
    let all_reports := pyAndOrReports isAdmin (queryset.filter visible)
    .page { reports := reports, all_reports := all_reports }

/-! ### `rejudge_submission_view` (`oioioi/contests/views.py`) -/

/-- Result of `rejudge_submission_view`. -/
inductive RejudgeResult
  | conditionFailed
  | methodNotAllowed
  | notFound
  | redirectSubmission (submission_id : Nat)
  deriving DecidableEq, Repr

/-- `rejudge_submission_view`: returns the result, the list of
`controller.judge` calls (submission id with the request's GET
parameter dictionary) and the messages recorded. -/
def rejudge_submission_view (isAdmin : Bool) (method : HttpMethod)
    (submission : Option Nat) (getParams : List (String × String)) :
    RejudgeResult × List (Nat × List (String × String)) × List Msg :=
  if !isAdmin then (.conditionFailed, [], [])
  else
    match method with
    | .get => (.methodNotAllowed, [], [])
    | .post =>
        match submission with
        | none => (.notFound, [], [])
        | some sid =>
            (.redirectSubmission sid, [(sid, getParams)],
              [.info "Rejudge request received."])

/-! ### `change_submission_kind_view` (`oioioi/contests/views.py`) -/

/-- Result of `change_submission_kind_view`. -/
inductive ChangeKindResult
  | conditionFailed
  | methodNotAllowed
  | notFound
  | redirectSubmission (submission_id : Nat)
  deriving DecidableEq, Repr

/-- `change_submission_kind_view`: `validKinds` models the controller's
`valid_kinds_for_submission(submission)`.  Returns the result, the list of
`controller.change_submission_kind` calls and the messages recorded. -/
def change_submission_kind_view (isAdmin : Bool) (method : HttpMethod)
    (submission : Option Nat) (kind : String) (validKinds : List String) :
    ChangeKindResult × List (Nat × String) × List Msg :=
  if !isAdmin then (.conditionFailed, [], [])
  else
    match method with
    | .get => (.methodNotAllowed, [], [])
    | .post =>
        match submission with
        | none => (.notFound, [], [])
        | some sid =>
            if kind ∈ validKinds then
              (.redirectSubmission sid, [(sid, kind)],
                [.success "Submission kind has been changed."])
            else
              (.redirectSubmission sid, [],
                [.error "Given kind is not valid for this submission."])

/-! ### `set_registration_view` (`oioioi/teachers/views.py`) -/

/-- Result of `set_registration_view`. -/
inductive SetRegResult
  | conditionFailed
  | notFound
  | redirectPupils
  deriving DecidableEq, Repr

/-- `set_registration_view`: sets `is_active` of the contest's
`RegistrationConfig` to `value` and redirects to the pupils page.  Returns
the result and the stored config after the view. -/
def set_registration_view (isAdmin : Bool)
    (cfg : Option RegistrationConfig) (value : Bool) :
    SetRegResult × Option RegistrationConfig :=
  if !isAdmin then (.conditionFailed, cfg)
  else
    match cfg with
    | none => (.notFound, none)
    | some c => (.redirectPupils, some { c with is_active := value })

/-! ### `submission_diff_action` (`oioioi/programs/admin.py`) -/

/-- A `Submission` row (identifier and date, the fields the action reads;
dates are modelled as totally ordered time stamps). -/
structure Submission where
  id : Nat
  date : Nat
  deriving DecidableEq, Repr

/-- `queryset.order_by('date')`: a stable ascending sort by date
(insertion sort, which is stable). -/
def orderByDate : List Submission → List Submission
  | [] => []
  | s :: rest => insertByDate s (orderByDate rest)
where
  insertByDate (s : Submission) : List Submission → List Submission
    | [] => [s]
    | t :: ts => if s.date ≤ t.date then s :: t :: ts
                 else t :: insertByDate s ts

/-- The redirect produced by `submission_diff_action`. -/
structure DiffRedirect where
  contest_id : Nat
  submission1_id : Nat
  submission2_id : Nat
  deriving DecidableEq, Repr

/-- `submission_diff_action`: with a selected queryset of any length other
than two it records an error and returns `None`; with exactly two it
redirects to `source_diff` with the older submission first.  Returns the
optional redirect and the messages recorded. -/
def submission_diff_action (contest_id : Nat)
    (queryset : List Submission) : Option DiffRedirect × List Msg :=
  if queryset.length ≠ 2 then
    (none, [.error "You shall select exactly two submissions to diff"])
  else
    match orderByDate queryset with
    | older :: newer :: _ =>
        (some { contest_id := contest_id, submission1_id := older.id,
                submission2_id := newer.id }, [])
    | _ => (none, [])

/-- The lexicographic reading of a statement sort key, used to transfer
order-theoretic facts from Mathlib's `Prod.Lex`. -/
def stmtKeyToLex (k : StmtKey) : Nat ×ₗ (Nat ×ₗ String) :=
  toLex (k.1, toLex (k.2.1, k.2.2))

/-! ## Order-theoretic helper lemmas about statement sort keys -/

theorem stmtKeyLT_iff_lex (a b : StmtKey) :
    stmtKeyLT a b ↔ stmtKeyToLex a < stmtKeyToLex b := by
  simp [stmtKeyLT, stmtKeyToLex, Prod.Lex.lt_iff]

theorem stmtKeyLT_irrefl (a : StmtKey) : ¬ stmtKeyLT a a := by
  rw [stmtKeyLT_iff_lex]
  exact lt_irrefl _

theorem stmtKeyLT_trans {a b c : StmtKey} :
    stmtKeyLT a b → stmtKeyLT b c → stmtKeyLT a c := by
  simp only [stmtKeyLT_iff_lex]
  exact lt_trans

theorem stmtKey_nlt_trans {a b c : StmtKey} :
    ¬ stmtKeyLT a b → ¬ stmtKeyLT b c → ¬ stmtKeyLT a c := by
  simp only [stmtKeyLT_iff_lex, not_lt]
  exact fun h1 h2 => le_trans h2 h1

theorem firstMinAux_mem {α : Type} (key : α → StmtKey) (best : α)
    (l : List α) : firstMinAux key best l ∈ best :: l := by
  induction l generalizing best with
  | nil => simp [firstMinAux]
  | cons s rest ih =>
    simp only [firstMinAux]
    by_cases h : stmtKeyLT (key s) (key best)
    · rw [if_pos h]
      exact List.mem_cons_of_mem _ (ih s)
    · rw [if_neg h]
      rcases List.mem_cons.mp (ih best) with h1 | h1
      · rw [h1]
        exact List.mem_cons_self _ _
      · exact List.mem_cons_of_mem _ (List.mem_cons_of_mem _ h1)

theorem firstMinAux_min {α : Type} (key : α → StmtKey) (best : α)
    (l : List α) :
    ∀ t ∈ best :: l, ¬ stmtKeyLT (key t) (key (firstMinAux key best l)) := by
  induction l generalizing best with
  | nil =>
    intro t ht
    rw [List.mem_singleton] at ht
    rw [ht]
    simp only [firstMinAux]
    exact stmtKeyLT_irrefl _
  | cons s rest ih =>
    intro t ht
    simp only [firstMinAux]
    by_cases h : stmtKeyLT (key s) (key best)
    · rw [if_pos h]
      rcases List.mem_cons.mp ht with h1 | h1
      · rw [h1]
        intro hb
        exact ih s s (List.mem_cons_self _ _) (stmtKeyLT_trans h hb)
      · exact ih s t h1
    · rw [if_neg h]
      rcases List.mem_cons.mp ht with h1 | h1
      · rw [h1]
        exact ih best best (List.mem_cons_self _ _)
      · rcases List.mem_cons.mp h1 with h2 | h2
        · rw [h2]
          exact stmtKey_nlt_trans h (ih best best (List.mem_cons_self _ _))
        · exact ih best t (List.mem_cons_of_mem _ h2)

theorem listIndex_map_some {α : Type} [DecidableEq α] (l : List α) (x : α) :
    listIndex (l.map some) (some x) = listIndex l x := by
  induction l with
  | nil => rfl
  | cons a as ih => simp [listIndex, ih]

theorem langPref_eq_amendedTier (c : String) (site : List String)
    (lang : Option String) :
    statementLangPref c site lang = amendedLangTier c site lang := by
  cases lang with
  | none =>
    simp [statementLangPref, amendedLangTier, lang_prefs, listIndex]
  | some l =>
    by_cases hc : l = c
    · subst hc
      simp [statementLangPref, amendedLangTier, lang_prefs, listIndex]
    · by_cases he : l = ""
      · subst he
        have hc' : ¬ c = "" := fun h => hc h.symm
        simp [statementLangPref, amendedLangTier, lang_prefs, listIndex,
          hc, hc']
      · have hc' : ¬ c = l := fun h => hc h.symm
        have he' : ¬ ("" : String) = l := fun h => he h.symm
        cases hsite : listIndex site l with
        | none =>
          simp [statementLangPref, amendedLangTier, lang_prefs, listIndex,
            listIndex_map_some, hc, hc', he, he', hsite]
        | some i =>
          simp [statementLangPref, amendedLangTier, lang_prefs, listIndex,
            listIndex_map_some, hc, hc', he, he', hsite]
          omega

theorem statementSortKey_eq_amendedKey (c : String) (site : List String)
    (s : ProblemStatement) :
    statementSortKey c site s = amendedStatementKey c site s := by
  simp [statementSortKey, amendedStatementKey, langPref_eq_amendedTier]

/-! ## Claim theorems -/

/-- C1 (amended): for every request passing the entry condition, problem
lookup and visibility check, with at least one statement present, the view
streams exactly the statement minimal under the amended preference:
statements are ordered by language preference (current language, then
empty-string language, then missing language, then the site languages in
order, then all other languages last), ties broken by extension preference
(.pdf, .ps, .html, .txt, unknown extensions after all known ones, ordered
among themselves by extension string). -/
theorem C1_streams_minimal_statement (c : String) (site : List String)
    (stmts : List ProblemStatement) (h : stmts ≠ []) :
    ∃ s, pickStatement c site stmts = some s ∧
      problem_statement_view true true true stmts c site
        = .streamFile s.content ∧
      s ∈ stmts ∧
      ∀ t ∈ stmts,
        ¬ stmtKeyLT (amendedStatementKey c site t)
          (amendedStatementKey c site s) := by
  match stmts, h with
  | a :: rest, _ =>
    refine ⟨firstMinAux (statementSortKey c site) a rest, rfl, rfl, ?_, ?_⟩
    · exact firstMinAux_mem _ a rest
    · intro t ht
      have hmin := firstMinAux_min (statementSortKey c site) a rest t ht
      simp only [statementSortKey_eq_amendedKey] at hmin
      exact hmin

/-- C1 witness: a concrete run of the amended statement-selection claim
(current language "en", site languages ["en", "pl"]). -/
theorem C1_streams_minimal_statement_witness :
    ([⟨some "pl", ".html", 10⟩, ⟨some "en", ".txt", 11⟩] :
        List ProblemStatement) ≠ [] ∧
    (∃ s, pickStatement "en" ["en", "pl"]
          [⟨some "pl", ".html", 10⟩, ⟨some "en", ".txt", 11⟩] = some s ∧
        problem_statement_view true true true
          [⟨some "pl", ".html", 10⟩, ⟨some "en", ".txt", 11⟩] "en"
          ["en", "pl"] = .streamFile s.content ∧
        s ∈ [⟨some "pl", ".html", 10⟩, ⟨some "en", ".txt", 11⟩] ∧
        ∀ t ∈ ([⟨some "pl", ".html", 10⟩, ⟨some "en", ".txt", 11⟩] :
            List ProblemStatement),
          ¬ stmtKeyLT (amendedStatementKey "en" ["en", "pl"] t)
            (amendedStatementKey "en" ["en", "pl"] s)) :=
  ⟨by decide, C1_streams_minimal_statement "en" ["en", "pl"] _ (by decide)⟩

/-- C1 counterexample: with current language "en", site languages ["en"]
and the statements [(language NULL, ".pdf"), (language "", ".txt")], the
view streams the empty-string ".txt" statement, although under the
claim's stated preference (empty-string OR missing language forming one
tier, ties broken by extension) the NULL-language ".pdf" statement
strictly precedes it, so the streamed statement is not the minimal one
the claim names. -/
theorem C1_claim_counterexample :
    problem_statement_view true true true
        [⟨none, ".pdf", 1⟩, ⟨some "", ".txt", 2⟩] "en" ["en"]
      = .streamFile 2 ∧
    stmtKeyLT (claimStatementKey "en" ["en"] ⟨none, ".pdf", 1⟩)
      (claimStatementKey "en" ["en"] ⟨some "", ".txt", 2⟩) ∧
    ¬ stmtKeyLT (claimStatementKey "en" ["en"] ⟨some "", ".txt", 2⟩)
      (claimStatementKey "en" ["en"] ⟨none, ".pdf", 1⟩) := by
  refine ⟨by decide, by decide, by decide⟩

/-- C2: for requests passing the contest-entry condition, a permission
failure raises PermissionDenied and nothing is streamed:
`problem_statement_view` raises it whenever `can_see_problem` is false,
and `problem_attachment_view` raises it whenever the attachment's problem
is not among the requester's visible problem instances. -/
theorem C2_permission_denied (stmts : List ProblemStatement) (c : String)
    (site : List String) (att : ProblemAttachment)
    (vis : List ProblemInstance)
    (h : att.problem_id ∉ vis.map (fun pi => pi.problem_id)) :
    problem_statement_view true true false stmts c site
      = .permissionDenied ∧
    (∀ x, problem_statement_view true true false stmts c site
      ≠ .streamFile x) ∧
    problem_attachment_view true (some att) vis = .permissionDenied ∧
    (∀ x, problem_attachment_view true (some att) vis ≠ .streamFile x) := by
  refine ⟨rfl, fun x => by simp [problem_statement_view], ?_, ?_⟩
  · simp [problem_attachment_view, h]
  · intro x
    simp [problem_attachment_view, h]

/-- C2 witness: a concrete denied statement request and a concrete denied
attachment request (attachment of problem 1, visible problems only 2). -/
theorem C2_permission_denied_witness :
    ((⟨1, 5⟩ : ProblemAttachment).problem_id ∉
      ([⟨2⟩] : List ProblemInstance).map (fun pi => pi.problem_id)) ∧
    (problem_statement_view true true false [] "en" []
        = .permissionDenied ∧
      (∀ x, problem_statement_view true true false [] "en" []
        ≠ .streamFile x) ∧
      problem_attachment_view true (some ⟨1, 5⟩) [⟨2⟩]
        = .permissionDenied ∧
      (∀ x, problem_attachment_view true (some ⟨1, 5⟩) [⟨2⟩]
        ≠ .streamFile x)) :=
  ⟨by decide, C2_permission_denied [] "en" [] ⟨1, 5⟩ [⟨2⟩] (by decide)⟩

/-- C3 counterexample: a logged-in teacher (user 7, who holds the teacher
permission and has a Teacher row) visits the activation view with the
correct key "k" while registration is active, but supplies no
`register_as` choice: the view returns the activation-type page and
creates no registration record, although the claim says a record is
created whenever the key matches and registration is active. -/
theorem C3_claim_counterexample :
    activate_pupil_view ⟨some ⟨"k", true⟩, [], [], [7]⟩ 7 "k" true none
      = (.activationTypePage "k", ⟨some ⟨"k", true⟩, [], [], [7]⟩, []) := by
  decide

/-- C3 (amended): under a present RegistrationConfig, a registration
record is created if and only if the supplied key equals the stored key,
registration is active, and the requester either lacks the teacher
permission or explicitly chooses "pupil" or "teacher" (with a Teacher row
in the latter case); a teacher given no choice is shown the choice page
with no record created; a teacher choosing anything other than "pupil" or
"teacher" is rejected as a suspicious operation with no record created; a
teacher choosing "teacher" without a Teacher row receives not-found with
no record created; when the key mismatches or registration is inactive an
activation-error page is returned and no record is created; activation is
idempotent: re-activating an already registered user leaves the records
unchanged and still succeeds. -/
theorem C3_activation_amended (st : RegState) (cfg : RegistrationConfig)
    (u : Nat) (key : String) (perm : Bool) (param : Option String)
    (hcfg : st.regConfig = some cfg) :
    (¬(cfg.key = key ∧ cfg.is_active = true) →
      activate_pupil_view st u key perm param
        = (.activationError (decide (cfg.key = key)) cfg.is_active,
            st, [])) ∧
    (cfg.key = key → cfg.is_active = true → perm = true → param = none →
      activate_pupil_view st u key perm param
        = (.activationTypePage key, st, [])) ∧
    (cfg.key = key → cfg.is_active = true →
      (perm = false ∨ param = some "pupil") →
      activate_pupil_view st u key perm param
        = (.redirectDefaultContestView,
            { st with pupils :=
                if u ∈ st.pupils then st.pupils else st.pupils ++ [u] },
            [.info "Activation successful."])) ∧
    (cfg.key = key → cfg.is_active = true → perm = true →
      param = some "teacher" → u ∈ st.teacherUsers →
      activate_pupil_view st u key perm param
        = (.redirectDefaultContestView,
            { st with contestTeachers :=
                if u ∈ st.contestTeachers then st.contestTeachers
                else st.contestTeachers ++ [u] },
            [.info "Activation successful."])) ∧
    (∀ v, cfg.key = key → cfg.is_active = true → perm = true →
      param = some v → v ≠ "pupil" → v ≠ "teacher" →
      activate_pupil_view st u key perm param
        = (.suspiciousOperation, st, [])) ∧
    (cfg.key = key → cfg.is_active = true → perm = true →
      param = some "teacher" → u ∉ st.teacherUsers →
      activate_pupil_view st u key perm param = (.notFound, st, [])) := by
  refine ⟨?_, ?_, ?_, ?_, ?_, ?_⟩
  · intro h
    simp only [activate_pupil_view, hcfg]
    rw [if_neg]
    simp only [Bool.and_eq_true, decide_eq_true_eq]
    exact h
  · intro hk ha hp hparam
    subst hp hparam
    simp [activate_pupil_view, hcfg, hk, ha]
  · intro hk ha hpp
    rcases hpp with hp | hp
    · subst hp
      simp [activate_pupil_view, hcfg, hk, ha]
    · subst hp
      cases perm <;> simp [activate_pupil_view, hcfg, hk, ha]
  · intro hk ha hp hparam ht
    subst hp hparam
    simp [activate_pupil_view, hcfg, hk, ha, ht]
  · intro v hk ha hp hparam hv1 hv2
    subst hp hparam
    simp [activate_pupil_view, hcfg, hk, ha, hv1, hv2]
  · intro hk ha hp hparam ht
    subst hp hparam
    simp [activate_pupil_view, hcfg, hk, ha, ht]

/-- C3 witness: a concrete run of the amended activation claim: the
non-teacher user 3, already registered as pupil, re-activates with the
correct key "k" while registration is active; activation succeeds and the
records are unchanged (idempotence). -/
theorem C3_activation_amended_witness :
    activate_pupil_view ⟨some ⟨"k", true⟩, [3], [], []⟩ 3 "k" false none
      = (.redirectDefaultContestView,
          { (⟨some ⟨"k", true⟩, [3], [], []⟩ : RegState) with pupils :=
              if 3 ∈ [3] then [3] else [3] ++ [3] },
          [.info "Activation successful."]) :=
  (C3_activation_amended ⟨some ⟨"k", true⟩, [3], [], []⟩ ⟨"k", true⟩ 3 "k"
    false none rfl).2.2.1 rfl rfl (Or.inl rfl)

/-- C4: for every superuser request to accept a teacher for an existing
user, the acceptance e-mail is sent if and only if the teacher record was
not already active; when the teacher is already active the record is left
unchanged, no e-mail is sent and an informational message is shown; in
both cases the request redirects to the teacher changelist. -/
theorem C4_accept_teacher_email_iff (u : Nat) (existing : Option Teacher) :
    (accept_teacher_view true true u existing).1
      = .redirectTeacherChangelist ∧
    ((accept_teacher_view true true u existing).2.2.1 = 1 ↔
      (teacherGetOrCreate existing u).is_active = false) ∧
    ((teacherGetOrCreate existing u).is_active = true →
      accept_teacher_view true true u existing
        = (.redirectTeacherChangelist, some (teacherGetOrCreate existing u),
            0, [.info "User already accepted."])) ∧
    (∀ t, existing = some t → t.is_active = true →
      (accept_teacher_view true true u existing).2.1 = existing) := by
  by_cases h : (teacherGetOrCreate existing u).is_active = true
  · refine ⟨?_, ?_, ?_, ?_⟩
    · simp [accept_teacher_view, h]
    · simp [accept_teacher_view, h]
    · intro _
      simp [accept_teacher_view, h]
    · intro t ht _
      subst ht
      simp [accept_teacher_view, teacherGetOrCreate] at h ⊢
      simp [h]
  · refine ⟨?_, ?_, ?_, ?_⟩
    · simp [accept_teacher_view, h]
    · simp [accept_teacher_view, h]
    · intro hc
      exact absurd hc h
    · intro t ht hact
      subst ht
      simp [teacherGetOrCreate] at h
      simp [hact] at h
  
/-- C4 witness: accepting user 5 whose teacher record is already active
leaves the record unchanged, sends no e-mail and shows the info message. -/
theorem C4_accept_teacher_email_iff_witness :
    (accept_teacher_view true true 5 (some ⟨5, true⟩)).1
      = .redirectTeacherChangelist ∧
    ((accept_teacher_view true true 5 (some ⟨5, true⟩)).2.2.1 = 1 ↔
      (teacherGetOrCreate (some ⟨5, true⟩) 5).is_active = false) ∧
    ((teacherGetOrCreate (some ⟨5, true⟩) 5).is_active = true →
      accept_teacher_view true true 5 (some ⟨5, true⟩)
        = (.redirectTeacherChangelist,
            some (teacherGetOrCreate (some ⟨5, true⟩) 5), 0,
            [.info "User already accepted."])) ∧
    (∀ t, (some ⟨5, true⟩ : Option Teacher) = some t → t.is_active = true →
      (accept_teacher_view true true 5 (some ⟨5, true⟩)).2.1
        = some ⟨5, true⟩) :=
  C4_accept_teacher_email_iff 5 (some ⟨5, true⟩)

/-- C5: for every POST to the submit view (entry conditions passing), an
invalid form redisplays the submit template with the bound form and
creates no submission; a valid form calls `controller.create_submission`
exactly once with the cleaned data and redirects to my-submissions. -/
theorem C5_submit_form_validation (cleaned : CleanedData) :
    submit_view true true .post false cleaned
      = (.submitTemplateWithBoundForm, []) ∧
    submit_view true true .post true cleaned
      = (.redirectMySubmissions, [cleaned]) :=
  ⟨rfl, rfl⟩

/-- C6: a contest-admin POST to the rejudge route with an existing
submission calls `controller.judge` exactly once on that submission with
the request's GET parameters, records an informational message and
redirects to the submission's page; a non-admin request or a non-POST
request triggers no judge call. -/
theorem C6_rejudge_once_admin_post (sid : Nat)
    (g : List (String × String)) (m : HttpMethod) (adm : Bool)
    (sub : Option Nat) :
    rejudge_submission_view true .post (some sid) g
      = (.redirectSubmission sid, [(sid, g)],
          [.info "Rejudge request received."]) ∧
    (rejudge_submission_view false m sub g).2.1 = [] ∧
    (rejudge_submission_view adm .get sub g).2.1 = [] := by
  refine ⟨rfl, rfl, ?_⟩
  cases adm <;> rfl

/-- C7: a contest-admin request to the set-registration view on a contest
with an existing RegistrationConfig sets the config's is_active flag to
exactly the supplied value, leaves the registration key unchanged, and
redirects to the pupils page. -/
theorem C7_set_registration_flag (c : RegistrationConfig) (v : Bool) :
    set_registration_view true (some c) v
      = (.redirectPupils, some { c with is_active := v }) ∧
    ({ c with is_active := v } : RegistrationConfig).key = c.key ∧
    ({ c with is_active := v } : RegistrationConfig).is_active = v :=
  ⟨rfl, rfl, rfl⟩

/-- C8: for every request to the single-submission view, the rendered
reports list contains only reports whose status is ACTIVE (further
filtered by the controller), and the all_reports value is the empty list
whenever the requester is not a contest admin, so only contest admins can
receive non-ACTIVE reports via all_reports. -/
theorem C8_submission_reports_visibility (db : List SubmissionReport)
    (vis : SubmissionReport → Bool) (adm : Bool) :
    ∃ ctx, submission_view true true adm db vis = .page ctx ∧
      (∀ r ∈ ctx.reports, r.status = "ACTIVE") ∧
      (adm = false → ctx.all_reports = []) := by
  refine ⟨_, rfl, ?_, ?_⟩
  · intro r hr
    simp only [List.mem_filter, decide_eq_true_eq] at hr
    exact hr.1.2
  · intro h
    subst h
    simp [pyAndOrReports]

/-- C8 witness: a non-admin visit to a submission with one ACTIVE and one
non-ACTIVE report, everything controller-visible. -/
theorem C8_submission_reports_visibility_witness :
    ∃ ctx, submission_view true true false
        [⟨1, "ACTIVE"⟩, ⟨2, "SUPERSEDED"⟩] (fun _ => true) = .page ctx ∧
      (∀ r ∈ ctx.reports, r.status = "ACTIVE") ∧
      ((false : Bool) = false → ctx.all_reports = []) :=
  C8_submission_reports_visibility [⟨1, "ACTIVE"⟩, ⟨2, "SUPERSEDED"⟩]
    (fun _ => true) false

/-- C9: a contest-admin POST to the change-submission-kind view changes
the submission's kind via `controller.change_submission_kind` if and only
if the requested kind is among `controller.valid_kinds_for_submission`;
otherwise an error message is recorded and no change call is made; in
both cases the response redirects to the submission's page. -/
theorem C9_change_kind_iff_valid (sid : Nat) (kind : String)
    (vk : List String) :
    (kind ∈ vk →
      change_submission_kind_view true .post (some sid) kind vk
        = (.redirectSubmission sid, [(sid, kind)],
            [.success "Submission kind has been changed."])) ∧
    (kind ∉ vk →
      change_submission_kind_view true .post (some sid) kind vk
        = (.redirectSubmission sid, [],
            [.error "Given kind is not valid for this submission."])) := by
  constructor <;> intro h <;> simp [change_submission_kind_view, h]

/-- C9 witness: changing submission 3 to kind "IGNORED" when the valid
kinds are ["NORMAL", "IGNORED"] performs exactly one change call and
redirects. -/
theorem C9_change_kind_iff_valid_witness :
    change_submission_kind_view true .post (some 3) "IGNORED"
        ["NORMAL", "IGNORED"]
      = (.redirectSubmission 3, [(3, "IGNORED")],
          [.success "Submission kind has been changed."]) :=
  (C9_change_kind_iff_valid 3 "IGNORED" ["NORMAL", "IGNORED"]).1 (by decide)

/-- C10: the admin submission-diff action records an error and returns no
redirect unless exactly two submissions are selected; with exactly two it
redirects to the source-diff page with the earlier-dated submission as
submission1_id and the later one as submission2_id (in either selection
order). -/
theorem C10_diff_action (cid : Nat) (q : List Submission)
    (a b : Submission) :
    (q.length ≠ 2 →
      submission_diff_action cid q
        = (none,
            [.error "You shall select exactly two submissions to diff"])) ∧
    (a.date < b.date →
      submission_diff_action cid [a, b]
        = (some ⟨cid, a.id, b.id⟩, []) ∧
      submission_diff_action cid [b, a]
        = (some ⟨cid, a.id, b.id⟩, [])) := by
  constructor
  · intro h
    simp [submission_diff_action, h]
  · intro h
    have hab : a.date ≤ b.date := le_of_lt h
    have hba : ¬ b.date ≤ a.date := not_le.mpr h
    constructor
    · simp [submission_diff_action, orderByDate, orderByDate.insertByDate,
        hab]
    · simp [submission_diff_action, orderByDate, orderByDate.insertByDate,
        hab, hba]

/-- C10 witness: selecting one submission yields the error and no
redirect; selecting submissions dated 10 and 20 (in either order)
redirects with the earlier one first. -/
theorem C10_diff_action_witness :
    (submission_diff_action 9 [⟨1, 10⟩]
      = (none,
          [.error "You shall select exactly two submissions to diff"])) ∧
    (submission_diff_action 9 [⟨1, 10⟩, ⟨2, 20⟩]
        = (some ⟨9, 1, 2⟩, []) ∧
      submission_diff_action 9 [⟨2, 20⟩, ⟨1, 10⟩]
        = (some ⟨9, 1, 2⟩, [])) :=
  ⟨(C10_diff_action 9 [⟨1, 10⟩] ⟨1, 10⟩ ⟨2, 20⟩).1 (by decide),
   (C10_diff_action 9 [⟨1, 10⟩] ⟨1, 10⟩ ⟨2, 20⟩).2 (by decide)⟩
